import Mathlib

/-!
Verification of the EOF v1 container library of `execution-spec-tests`:
the container model and serializer (`src/execution_tests_library/eof/v1`),
the generic code helpers (`src/execution_tests_library/code/code.py`),
and the EOF v1 fixture enumerator (`fillers/eof/v1.py`).

Bytes are modelled as `List Nat` (each entry one byte value), Python integers
as `Int`/`Nat`, and fallible Python code (`raise`) as `Except String`.
-/

namespace EOF

/-- Big-endian digit list of `x` in `n` bytes, mirroring the digit extraction
of Python `int.to_bytes(n, byteorder="big")` for in-range values. -/
def natToBEBytes (x : Nat) : Nat → List Nat
  | 0 => []
  | n + 1 => x / 256 ^ n % 256 :: natToBEBytes x n

/-- Python `int.to_bytes(n, byteorder="big")` (unsigned): raises
`OverflowError` when the integer is negative or does not fit in `n` bytes. -/
def int_to_bytes (x : Int) (n : Nat) : Except String (List Nat) :=
  if 0 ≤ x ∧ x < (256 : Int) ^ n then .ok (natToBEBytes x.toNat n)
  else .error "OverflowError"

/-- The whitespace class of Python's regex `\s` (ASCII range). -/
def isPySpace (c : Char) : Bool :=
  c = ' ' || c = '\t' || c = '\n' || c = '\r' || c = '\x0b' || c = '\x0c'

/-- Value of one hexadecimal digit, as accepted by Python `bytes.fromhex`. -/
def hexVal (c : Char) : Option Nat :=
  if '0' ≤ c ∧ c ≤ '9' then some (c.toNat - '0'.toNat)
  else if 'a' ≤ c ∧ c ≤ 'f' then some (c.toNat - 'a'.toNat + 10)
  else if 'A' ≤ c ∧ c ≤ 'F' then some (c.toNat - 'A'.toNat + 10)
  else none

/-- Pair up hex digits into byte values; `none` on an odd count or a
non-hex character, as `bytes.fromhex` fails there. -/
def hexPairs : List Char → Option (List Nat)
  | [] => some []
  | [_] => none
  | c1 :: c2 :: rest =>
    match hexVal c1, hexVal c2, hexPairs rest with
    | some h, some l, some bs => some ((16 * h + l) :: bs)
    | _, _, _ => none

/-- The string branch of `code_to_bytes`: strip all whitespace (`re.sub`
with `\s+`), drop a leading `0x` if present, then `bytes.fromhex`. -/
def pyStrToBytes (s : String) : Option (List Nat) :=
  let cs := s.data.filter (fun c => !(isPySpace c))
  let cs := if cs.take 2 = ['0', 'x'] then cs.drop 2 else cs
  hexPairs cs

/-- `VERSION_NUMBER = bytes.fromhex("01")` from `eof/v1/__init__.py`. -/
def VERSION_NUMBER : List Nat := [0x01]

/-- `VERSION_MAX_SECTION_KIND = 3` from `eof/v1/__init__.py`. -/
def VERSION_MAX_SECTION_KIND : Int := 3

/-- Modelled from the spec: `EOF_MAGIC` lives in `eof/constants.py`, which is
absent from the sources; the spec fixes the wire prefix as magic `EF00`, so
after the 1-byte `EF` marker the magic constant contributes the byte `0x00`. -/
def EOF_MAGIC : List Nat := [0x00]

/-- Modelled from the spec: `EOF_HEADER_TERMINATOR` lives in
`eof/constants.py`, absent from the sources; the spec fixes the single
header-terminator byte as `00`. -/
def EOF_HEADER_TERMINATOR : List Nat := [0x00]

/-- Modelled from the spec: `LATEST_EOF_VERSION` lives in `eof/__init__.py`,
absent from the sources; the spec's "exact max-valid+1 version" fixture and
the version byte `01` make the latest valid version `1`. -/
def LATEST_EOF_VERSION : Int := 1

mutual

/-- A value of the Python `Code` class hierarchy: either a generic `Code`
(fields `bytecode`, `name`) or an EOF v1 `Container` (which subclasses
`Code`; the inherited `bytecode` field is unused by `Container.assemble`,
so it is not modelled). -/
inductive CodeVal : Type where
  | generic : Option (List Nat) → Option String → CodeVal
  | container : Container → CodeVal

/-- The `Container` dataclass of `eof/v1/__init__.py`: fields `sections`,
`custom_magic`, `custom_version`, `custom_terminator`, `extra`, `name`. -/
inductive Container : Type where
  | mk : List Section → Option Int → Option Int → Option (List Nat) →
      Option (List Nat) → Option String → Container

/-- The `Section` dataclass of `eof/v1/__init__.py`: fields `data`
(`Code | str | bytes | None`), `custom_size`, `kind` (any `int`). -/
inductive Section : Type where
  | mk : Option CodeArg → Option Int → Int → Section

/-- An argument acceptable to `code_to_bytes`: `str | bytes | Code`. -/
inductive CodeArg : Type where
  | ofStr : String → CodeArg
  | ofBytes : List Nat → CodeArg
  | ofCode : CodeVal → CodeArg

end

def Container.sections : Container → List Section
  | .mk ss _ _ _ _ _ => ss

def Container.custom_magic : Container → Option Int
  | .mk _ m _ _ _ _ => m

def Container.custom_version : Container → Option Int
  | .mk _ _ v _ _ _ => v

def Container.custom_terminator : Container → Option (List Nat)
  | .mk _ _ _ t _ _ => t

def Container.extra : Container → Option (List Nat)
  | .mk _ _ _ _ e _ => e

def Container.name : Container → Option String
  | .mk _ _ _ _ _ n => n

def Section.data : Section → Option CodeArg
  | .mk d _ _ => d

def Section.custom_size : Section → Option Int
  | .mk _ s _ => s

def Section.kind : Section → Int
  | .mk _ _ k => k

mutual

/-- `code_to_bytes` of `code/code.py`: dispatch on `Code` (virtual
`assemble`), raw `bytes`, or hex `str`. -/
def code_to_bytes : CodeArg → Except String (List Nat)
  | .ofStr s =>
    match pyStrToBytes s with
    | some b => .ok b
    | none => .error "ValueError: fromhex"
  | .ofBytes b => .ok b
  | .ofCode c => CodeVal.assemble c

/-- Virtual dispatch of `assemble`: the generic `Code.assemble` returns
`bytecode` (or `b""` when it is `None`); `Container` overrides it. -/
def CodeVal.assemble : CodeVal → Except String (List Nat)
  | .generic bc _ => .ok (bc.getD [])
  | .container c => Container.assemble c

/-- `Section.get_header`: size is `custom_size`, or else
`len(code_to_bytes(data))` (raising when `data` is `None`); then
`kind.to_bytes(1)` followed by `size.to_bytes(2)`, big-endian. -/
def Section.get_header : Section → Except String (List Nat)
  | .mk dat csize kind =>
    let sizeE : Except String Int :=
      match csize with
      | some n => .ok n
      | none =>
        match dat with
        | none => .error "Attempted to build header without section data"
        | some d =>
          match code_to_bytes d with
          | .ok b => .ok (Int.ofNat b.length)
          | .error e => .error e
    match sizeE with
    | .error e => .error e
    | .ok size =>
      match int_to_bytes kind 1 with
      | .error e => .error e
      | .ok kb =>
        match int_to_bytes size 2 with
        | .error e => .error e
        | .ok sb => .ok (kb ++ sb)

/-- Body bytes of one section, per `Container.assemble`:
`code_to_bytes(s.data if s.data is not None else "0x")`; the `"0x"` branch
of `code_to_bytes` is unfolded one step here. -/
def Section.body_bytes : Section → Except String (List Nat)
  | .mk dat _ _ =>
    match dat with
    | some d => code_to_bytes d
    | none =>
      match pyStrToBytes "0x" with
      | some b => .ok b
      | none => .error "ValueError: fromhex"

/-- The first `for s in self.sections` loop of `Container.assemble`,
appending each section's header to the accumulated bytes. -/
def assembleHeaders : List Nat → List Section → Except String (List Nat)
  | acc, [] => .ok acc
  | acc, s :: rest =>
    match Section.get_header s with
    | .error e => .error e
    | .ok h => assembleHeaders (acc ++ h) rest

/-- The second `for s in self.sections` loop of `Container.assemble`,
appending each section's body bytes to the accumulated bytes. -/
def assembleBodies : List Nat → List Section → Except String (List Nat)
  | acc, [] => .ok acc
  | acc, s :: rest =>
    match Section.body_bytes s with
    | .error e => .error e
    | .ok b => assembleBodies (acc ++ b) rest

/-- `Container.assemble` of `eof/v1/__init__.py`: marker `EF`; magic
(custom 1-byte override or `EOF_MAGIC`); version (custom 1-byte override or
`VERSION_NUMBER`); the section headers; the terminator (custom override or
`EOF_HEADER_TERMINATOR`); the section bodies; then `extra` if set.
`magicBytes`/`versionBytes` below name the two inline conditional
expressions of the source. -/
def Container.assemble : Container → Except String (List Nat)
  | .mk sections cmagic cversion cterm extra _ =>
    let c : List Nat := [0xEF]
    match (match cmagic with
           | none => Except.ok EOF_MAGIC
           | some m => int_to_bytes m 1) with
    | .error e => .error e
    | .ok mb =>
      let c := c ++ mb
      match (match cversion with
             | none => Except.ok VERSION_NUMBER
             | some v => int_to_bytes v 1) with
      | .error e => .error e
      | .ok vb =>
        let c := c ++ vb
        match assembleHeaders c sections with
        | .error e => .error e
        | .ok c2 =>
          let c3 := c2 ++ (match cterm with
                           | some t => t
                           | none => EOF_HEADER_TERMINATOR)
          match assembleBodies c3 sections with
          | .error e => .error e
          | .ok c4 => .ok (c4 ++ (match extra with
                                  | some ex => ex
                                  | none => []))

end

/-- The magic field of the output: `EOF_MAGIC` unless `custom_magic` is set,
in which case its single-byte big-endian encoding. -/
def magicBytes : Option Int → Except String (List Nat)
  | none => .ok EOF_MAGIC
  | some m => int_to_bytes m 1

/-- The version field of the output: `VERSION_NUMBER` unless
`custom_version` is set, in which case its single-byte encoding. -/
def versionBytes : Option Int → Except String (List Nat)
  | none => .ok VERSION_NUMBER
  | some v => int_to_bytes v 1

theorem assemble_unfold (ss : List Section) (cmagic cversion : Option Int)
    (cterm extra : Option (List Nat)) (nm : Option String) :
    Container.assemble (.mk ss cmagic cversion cterm extra nm) =
      match magicBytes cmagic with
      | .error e => .error e
      | .ok mb =>
        match versionBytes cversion with
        | .error e => .error e
        | .ok vb =>
          match assembleHeaders ([0xEF] ++ mb ++ vb) ss with
          | .error e => .error e
          | .ok c2 =>
            match assembleBodies
                (c2 ++ cterm.getD EOF_HEADER_TERMINATOR) ss with
            | .error e => .error e
            | .ok c4 => .ok (c4 ++ extra.getD []) := by
  simp only [Container.assemble, magicBytes, versionBytes, Option.getD]
  cases cmagic <;> cases cversion <;> cases cterm <;> cases extra <;> rfl

/-- The size field of one section header as claim C1 words it:
`custom_size` when set and `len(code_to_bytes(data))` otherwise (an error
when `data` is `None`). -/
def sectionSizeC1 (s : Section) : Except String Int :=
  match s.custom_size with
  | some n => .ok n
  | none =>
    match s.data with
    | none => .error "Attempted to build header without section data"
    | some d =>
      match code_to_bytes d with
      | .ok b => .ok (Int.ofNat b.length)
      | .error e => .error e

/-- The header layout of one section as claim C1 words it: a 1-byte kind
followed by the 2-byte big-endian size. -/
def sectionHeaderSpecC1 (s : Section) : Except String (List Nat) :=
  match sectionSizeC1 s with
  | .error e => .error e
  | .ok size =>
    match int_to_bytes s.kind 1, int_to_bytes size 2 with
    | .error e, _ => .error e
    | .ok _, .error e => .error e
    | .ok kb, .ok sb => .ok (kb ++ sb)

/-- The body of one section as claim C1 words it: its raw body bytes, with
zero bytes emitted for a section whose data is `None`. -/
def sectionBodySpecC1 (s : Section) : Except String (List Nat) :=
  match s.data with
  | none => .ok []
  | some d => code_to_bytes d

/-- All section headers, each computed independently, in section-list
order. -/
def collectHeadersC1 : List Section → Except String (List (List Nat))
  | [] => .ok []
  | s :: rest =>
    match sectionHeaderSpecC1 s, collectHeadersC1 rest with
    | .error e, _ => .error e
    | .ok _, .error e => .error e
    | .ok h, .ok hs => .ok (h :: hs)

/-- All section bodies, each computed independently, in section-list
order. -/
def collectBodiesC1 : List Section → Except String (List (List Nat))
  | [] => .ok []
  | s :: rest =>
    match sectionBodySpecC1 s, collectBodiesC1 rest with
    | .error e, _ => .error e
    | .ok _, .error e => .error e
    | .ok b, .ok bs => .ok (b :: bs)

/-- The full output layout claim C1 describes: marker, magic, version, the
section headers in section-list order, terminator, the bodies in the same
order, then the extra trailing bytes — nothing reordered, fixed or padded. -/
def assembleSpecC1 (c : Container) : Except String (List Nat) :=
  match magicBytes c.custom_magic with
  | .error e => .error e
  | .ok mb =>
    match versionBytes c.custom_version with
    | .error e => .error e
    | .ok vb =>
      match collectHeadersC1 c.sections with
      | .error e => .error e
      | .ok hs =>
        match collectBodiesC1 c.sections with
        | .error e => .error e
        | .ok bs =>
          .ok ([0xEF] ++ mb ++ vb ++ hs.flatten ++
            c.custom_terminator.getD EOF_HEADER_TERMINATOR ++
            bs.flatten ++ c.extra.getD [])

theorem sectionHeaderSpecC1_eq (s : Section) :
    sectionHeaderSpecC1 s = Section.get_header s := by
  obtain ⟨dat, csize, kind⟩ := s
  rw [Section.get_header.eq_def]
  simp only [sectionHeaderSpecC1, sectionSizeC1, Section.custom_size,
    Section.data, Section.kind]
  cases csize with
  | some n =>
    dsimp only
    cases h1 : int_to_bytes kind 1 <;> cases h2 : int_to_bytes n 2 <;> rfl
  | none =>
    cases dat with
    | none => rfl
    | some d =>
      dsimp only
      cases hc : code_to_bytes d with
      | error e => rfl
      | ok b =>
        dsimp only
        cases h1 : int_to_bytes kind 1 <;>
          cases h2 : int_to_bytes (Int.ofNat b.length) 2 <;> rfl

theorem sectionBodySpecC1_eq (s : Section) :
    sectionBodySpecC1 s = Section.body_bytes s := by
  obtain ⟨dat, csize, kind⟩ := s
  cases dat <;> rfl

theorem assembleHeaders_eq (ss : List Section) :
    ∀ acc, assembleHeaders acc ss =
      match collectHeadersC1 ss with
      | .error e => .error e
      | .ok hs => .ok (acc ++ hs.flatten) := by
  induction ss with
  | nil =>
    intro acc
    rw [assembleHeaders.eq_def]
    dsimp only [collectHeadersC1]
    simp
  | cons s rest ih =>
    intro acc
    rw [assembleHeaders.eq_def]
    dsimp only [collectHeadersC1]
    rw [sectionHeaderSpecC1_eq]
    cases hs : Section.get_header s with
    | error e => rfl
    | ok h =>
      dsimp only
      rw [ih]
      cases hr : collectHeadersC1 rest with
      | error e => rfl
      | ok hds =>
        dsimp only
        simp [List.append_assoc]

theorem assembleBodies_eq (ss : List Section) :
    ∀ acc, assembleBodies acc ss =
      match collectBodiesC1 ss with
      | .error e => .error e
      | .ok bs => .ok (acc ++ bs.flatten) := by
  induction ss with
  | nil =>
    intro acc
    rw [assembleBodies.eq_def]
    dsimp only [collectBodiesC1]
    simp
  | cons s rest ih =>
    intro acc
    rw [assembleBodies.eq_def]
    dsimp only [collectBodiesC1]
    rw [sectionBodySpecC1_eq]
    cases hb : Section.body_bytes s with
    | error e => rfl
    | ok b =>
      dsimp only
      rw [ih]
      cases hr : collectBodiesC1 rest with
      | error e => rfl
      | ok bs =>
        dsimp only
        simp [List.append_assoc]

/-- Shared structure lemma: `Container.assemble` computes exactly the
layout of `assembleSpecC1`. -/
theorem assemble_eq_specC1 (c : Container) :
    Container.assemble c = assembleSpecC1 c := by
  obtain ⟨ss, cmagic, cversion, cterm, extra, nm⟩ := c
  rw [assemble_unfold]
  simp only [assembleSpecC1, Container.sections, Container.custom_magic,
    Container.custom_version, Container.custom_terminator, Container.extra]
  cases hm : magicBytes cmagic with
  | error e => rfl
  | ok mb =>
    dsimp only
    cases hv : versionBytes cversion with
    | error e => rfl
    | ok vb =>
      dsimp only
      rw [assembleHeaders_eq]
      cases hh : collectHeadersC1 ss with
      | error e => rfl
      | ok hs =>
        dsimp only
        rw [assembleBodies_eq]
        cases hb : collectBodiesC1 ss with
        | error e => rfl
        | ok bs =>
          dsimp only

theorem natToBEBytes_length (x : Nat) : ∀ n, (natToBEBytes x n).length = n := by
  intro n
  induction n with
  | zero => rfl
  | succ k ih => simp [natToBEBytes, ih]

theorem int_to_bytes_eq_ok (x : Int) (n : Nat) (b : List Nat) :
    int_to_bytes x n = Except.ok b ↔
      (0 ≤ x ∧ x < (256 : Int) ^ n) ∧ b = natToBEBytes x.toNat n := by
  unfold int_to_bytes
  split
  · rename_i h
    simp [h, eq_comm]
  · rename_i h
    simp [h]

theorem int_to_bytes_eq_error (x : Int) (n : Nat) (e : String) :
    int_to_bytes x n = Except.error e ↔
      ¬(0 ≤ x ∧ x < (256 : Int) ^ n) ∧ e = "OverflowError" := by
  unfold int_to_bytes
  split
  · rename_i h
    simp [h]
  · rename_i h
    simp [h, eq_comm]

/-- C1: `Container.assemble` emits, in this exact order: the 1-byte marker
`0xEF`; the magic (`custom_magic` override or the canonical constant); the
version (`custom_version` override or the canonical `0x01`); for each
section in list order a 1-byte kind and a 2-byte big-endian size equal to
`custom_size` when set and `len(code_to_bytes(data))` otherwise; the
terminator (`custom_terminator` override or the canonical byte); each
section's raw body bytes in the same order (zero bytes for `None` data);
and the extra trailing bytes — with no reordering, fixing, or padding. -/
theorem assemble_layout_c1 (c : Container) :
    Container.assemble c = assembleSpecC1 c :=
  assemble_eq_specC1 c

/-- The single-CODE-section, single-STOP-body container the tests build. -/
def c4_container : Container :=
  Container.mk [Section.mk (some (CodeArg.ofStr "0x00")) none 1]
    none none none none none

/-- C4: a container holding exactly one CODE section with body `0x00` and no
data section assembles to exactly the bytes `ef0001010001000000`. -/
theorem assemble_single_stop_c4 :
    Container.assemble c4_container =
      Except.ok [0xEF, 0x00, 0x01, 0x01, 0x00, 0x01, 0x00, 0x00] := by
  rfl

/-- The incomplete-contents fixture of the tests: a CODE section declaring
`custom_size = 2` while supplying zero body bytes. -/
def c5_container : Container :=
  Container.mk [Section.mk (some (CodeArg.ofStr "0x")) (some 2) 1]
    none none none none none

/-- C5 counterexample: that container assembles to 7 bytes, which is 2 — not
1 — bytes shorter than its declared total size of 9 (7 header bytes plus the
declared section size 2). -/
theorem assemble_incomplete_c5_cex :
    Container.assemble c5_container =
      Except.ok [0xEF, 0x00, 0x01, 0x01, 0x00, 0x02, 0x00] ∧
    ([0xEF, 0x00, 0x01, 0x01, 0x00, 0x02, 0x00] : List Nat).length ≠
      (7 + 2) - 1 := by
  constructor
  · rfl
  · decide

/-- C5 (amended): a container declaring a single CODE section with
`custom_size = 2` but zero body bytes assembles to a byte sequence exactly
2 bytes shorter than its declared total size (header length plus declared
section size), and the serializer does not auto-pad the body. -/
theorem assemble_incomplete_c5 :
    Container.assemble c5_container =
      Except.ok [0xEF, 0x00, 0x01, 0x01, 0x00, 0x02, 0x00] ∧
    ([0xEF, 0x00, 0x01, 0x01, 0x00, 0x02, 0x00] : List Nat).length =
      (7 + 2) - 2 := by
  constructor
  · rfl
  · decide

theorem int_to_bytes1_ok (x : Int) (h0 : 0 ≤ x) (h1 : x < 256) :
    int_to_bytes x 1 = Except.ok [x.toNat] := by
  rw [int_to_bytes_eq_ok]
  refine ⟨⟨h0, by simpa using h1⟩, ?_⟩
  simp only [natToBEBytes, pow_zero, Nat.div_one, List.cons.injEq, and_true]
  omega

theorem int_to_bytes2_ok (x : Int) (h0 : 0 ≤ x) (h1 : x < 65536) :
    int_to_bytes x 2 = Except.ok [x.toNat / 256, x.toNat % 256] := by
  rw [int_to_bytes_eq_ok]
  refine ⟨⟨h0, by norm_num; omega⟩, ?_⟩
  simp only [natToBEBytes, pow_one, pow_zero, Nat.div_one,
    List.cons.injEq, and_true]
  omega

/-- A magic or version override value that fits in one byte (vacuous when
the override is unset). -/
def fieldByteOk : Option Int → Bool
  | none => true
  | some m => decide (0 ≤ m) && decide (m < 256)

/-- The conditions under which one section serializes: its kind fits in one
byte, its data (when present) converts to bytes, and its header size —
`custom_size` if set, else the length of the converted data — exists and
fits in two bytes. -/
def sectionOk (s : Section) : Bool :=
  (decide (0 ≤ s.kind) && decide (s.kind < 256)) &&
  (match s.data with
   | none => true
   | some d =>
     match code_to_bytes d with
     | .ok _ => true
     | .error _ => false) &&
  (match s.custom_size with
   | some n => decide (0 ≤ n) && decide (n < 65536)
   | none =>
     match s.data with
     | none => false
     | some d =>
       match code_to_bytes d with
       | .ok b => decide (b.length < 65536)
       | .error _ => false)

/-- The conditions under which a whole container serializes: in-range magic
and version overrides and every section `sectionOk`. -/
def containerOk (c : Container) : Bool :=
  fieldByteOk c.custom_magic && fieldByteOk c.custom_version &&
    c.sections.all sectionOk

theorem magicBytes_isOk (o : Option Int) (h : fieldByteOk o = true) :
    ∃ mb, magicBytes o = Except.ok mb := by
  cases o with
  | none => exact ⟨EOF_MAGIC, rfl⟩
  | some m =>
    simp only [fieldByteOk, Bool.and_eq_true, decide_eq_true_eq] at h
    exact ⟨[m.toNat], int_to_bytes1_ok m h.1 h.2⟩

theorem versionBytes_isOk (o : Option Int) (h : fieldByteOk o = true) :
    ∃ vb, versionBytes o = Except.ok vb := by
  cases o with
  | none => exact ⟨VERSION_NUMBER, rfl⟩
  | some v =>
    simp only [fieldByteOk, Bool.and_eq_true, decide_eq_true_eq] at h
    exact ⟨[v.toNat], int_to_bytes1_ok v h.1 h.2⟩

theorem get_header_isOk (s : Section) (h : sectionOk s = true) :
    ∃ out, Section.get_header s = Except.ok out := by
  obtain ⟨dat, csize, kind⟩ := s
  rw [Section.get_header.eq_def]
  dsimp only
  cases csize with
  | some n =>
    simp only [sectionOk, Section.kind, Section.data, Section.custom_size,
      Bool.and_eq_true, decide_eq_true_eq] at h
    have hk0 : 0 ≤ kind := by tauto
    have hk1 : kind < 256 := by tauto
    have hn0 : 0 ≤ n := by tauto
    have hn1 : n < 65536 := by tauto
    dsimp only
    exact ⟨_, by rw [int_to_bytes1_ok kind hk0 hk1, int_to_bytes2_ok n hn0 hn1]⟩
  | none =>
    cases dat with
    | none =>
      simp [sectionOk, Section.kind, Section.data, Section.custom_size] at h
    | some d =>
      cases hc : code_to_bytes d with
      | error e =>
        simp only [sectionOk, Section.kind, Section.data,
          Section.custom_size, hc, Bool.and_eq_true] at h
        simp at h
      | ok b =>
        simp only [sectionOk, Section.kind, Section.data,
          Section.custom_size, hc, Bool.and_eq_true,
          decide_eq_true_eq] at h
        have hk0 : 0 ≤ kind := by tauto
        have hk1 : kind < 256 := by tauto
        have hlen : b.length < 65536 := by tauto
        dsimp only
        rw [hc]
        dsimp only
        exact ⟨_, by
          rw [int_to_bytes1_ok kind hk0 hk1,
            int_to_bytes2_ok (Int.ofNat b.length) (Int.ofNat_nonneg _)
              (by
                have hcast : (b.length : Int) < 65536 := by exact_mod_cast hlen
                exact hcast)]⟩

theorem body_bytes_isOk (s : Section) (h : sectionOk s = true) :
    ∃ out, Section.body_bytes s = Except.ok out := by
  obtain ⟨dat, csize, kind⟩ := s
  cases dat with
  | none => exact ⟨[], rfl⟩
  | some d =>
    cases hc : code_to_bytes d with
    | error e =>
      simp only [sectionOk, Section.kind, Section.data, Section.custom_size,
        hc, Bool.and_eq_true] at h
      simp at h
    | ok b =>
      refine ⟨b, ?_⟩
      rw [Section.body_bytes.eq_def]
      dsimp only
      exact hc

theorem assembleHeaders_isOk (ss : List Section) :
    ss.all sectionOk = true →
      ∀ acc, ∃ out, assembleHeaders acc ss = Except.ok out := by
  induction ss with
  | nil => intro _ acc; exact ⟨acc, rfl⟩
  | cons s rest ih =>
    intro h acc
    simp only [List.all_cons, Bool.and_eq_true] at h
    obtain ⟨hd, hhd⟩ := get_header_isOk s h.1
    obtain ⟨out, hout⟩ := ih h.2 (acc ++ hd)
    refine ⟨out, ?_⟩
    rw [assembleHeaders.eq_def]
    dsimp only
    rw [hhd]
    exact hout

theorem assembleBodies_isOk (ss : List Section) :
    ss.all sectionOk = true →
      ∀ acc, ∃ out, assembleBodies acc ss = Except.ok out := by
  induction ss with
  | nil => intro _ acc; exact ⟨acc, rfl⟩
  | cons s rest ih =>
    intro h acc
    simp only [List.all_cons, Bool.and_eq_true] at h
    obtain ⟨bd, hbd⟩ := body_bytes_isOk s h.1
    obtain ⟨out, hout⟩ := ih h.2 (acc ++ bd)
    refine ⟨out, ?_⟩
    rw [assembleBodies.eq_def]
    dsimp only
    rw [hbd]
    exact hout

/-- A container whose only section has neither data nor a declared size:
`Section.get_header` raises on it, so `Container.assemble` fails. -/
def c2_container : Container :=
  Container.mk [Section.mk none none 1] none none none none none

/-- C2 counterexample: `Container.assemble` is not total — it fails on a
container whose section has `data = None` and `custom_size = None`. -/
theorem assemble_can_fail_c2_cex :
    Container.assemble c2_container =
      Except.error "Attempted to build header without section data" := by
  rfl

/-- C2 (amended): `Container.assemble` returns a byte sequence for every
container whose magic/version overrides fit in one byte and whose every
section has an in-range one-byte kind, convertible data, and a computable
two-byte size — including containers describing deliberately invalid byte
layouts (wrong magic or version, missing terminator, size/body mismatch,
out-of-range section kind within a byte). -/
theorem assemble_total_c2 (c : Container) (h : containerOk c = true) :
    (Container.assemble c).isOk = true := by
  obtain ⟨ss, cmagic, cversion, cterm, extra, nm⟩ := c
  simp only [containerOk, Container.custom_magic, Container.custom_version,
    Container.sections, Bool.and_eq_true] at h
  have hm : fieldByteOk cmagic = true := by tauto
  have hv : fieldByteOk cversion = true := by tauto
  have hss : ss.all sectionOk = true := by tauto
  obtain ⟨mb, hmb⟩ := magicBytes_isOk _ hm
  obtain ⟨vb, hvb⟩ := versionBytes_isOk _ hv
  obtain ⟨hout, hh⟩ := assembleHeaders_isOk ss hss ([0xEF] ++ mb ++ vb)
  obtain ⟨bout, hb⟩ :=
    assembleBodies_isOk ss hss (hout ++ cterm.getD EOF_HEADER_TERMINATOR)
  rw [assemble_unfold, hmb]
  dsimp only
  rw [hvb]
  dsimp only
  rw [hh]
  dsimp only
  rw [hb]
  rfl

/-- C2 witness: the single-STOP container satisfies `containerOk` and
assembles successfully. -/
theorem assemble_total_c2_witness :
    (Container.assemble c4_container).isOk = true :=
  assemble_total_c2 c4_container (by rfl)

theorem int_to_bytes_pos (x : Int) (n : Nat)
    (h : 0 ≤ x ∧ x < (256 : Int) ^ n) :
    int_to_bytes x n = Except.ok (natToBEBytes x.toNat n) := by
  unfold int_to_bytes
  exact if_pos h

theorem int_to_bytes_neg (x : Int) (n : Nat)
    (h : ¬(0 ≤ x ∧ x < (256 : Int) ^ n)) :
    int_to_bytes x n = Except.error "OverflowError" := by
  unfold int_to_bytes
  exact if_neg h

/-- A section with data present but a kind value that does not fit in one
byte: `get_header` fails on it even though its data is not `None`. -/
def c3_section : Section := Section.mk (some (CodeArg.ofBytes [0x00])) none 256

/-- C3 counterexample: `Section.get_header` raises on a section whose data
is present (`custom_size` unset, kind `256`), so the error condition is not
equivalent to "data is None and custom_size is None". -/
theorem get_header_error_c3_cex :
    Section.get_header c3_section = Except.error "OverflowError" ∧
      c3_section.data ≠ none := by
  constructor
  · rfl
  · simp [c3_section, Section.data]

/-- The exact failure condition of `Section.get_header`: both data and
declared size missing, or the data failing byte conversion when the size
must come from it, or a kind outside one byte, or a size outside two
bytes. -/
def headerErrCond (s : Section) : Bool :=
  match s.custom_size, s.data with
  | none, none => true
  | none, some d =>
    (match code_to_bytes d with
     | .error _ => true
     | .ok b =>
       !(decide (0 ≤ s.kind) && decide (s.kind < 256)) ||
         decide ((65536 : Nat) ≤ b.length))
  | some n, _ =>
    !(decide (0 ≤ s.kind) && decide (s.kind < 256)) ||
      !(decide (0 ≤ n) && decide (n < 65536))

/-- C3 (amended): `Section.get_header` raises exactly when `headerErrCond`
holds — data and custom_size both `None`, or the data failing byte
conversion when the size must come from it, or a kind outside one byte, or
a size outside two bytes — and in every other case returns exactly 3 bytes
(1 kind byte plus a 2-byte big-endian size). -/
theorem get_header_cases_c3 (s : Section) :
    match Section.get_header s with
    | .ok out => headerErrCond s = false ∧ out.length = 3
    | .error _ => headerErrCond s = true := by
  obtain ⟨dat, csize, kind⟩ := s
  rw [Section.get_header.eq_def]
  dsimp only
  cases csize with
  | some n =>
    dsimp only
    by_cases hk : 0 ≤ kind ∧ kind < (256 : Int) ^ 1
    · by_cases hn : 0 ≤ n ∧ n < (256 : Int) ^ 2
      · rw [int_to_bytes_pos kind 1 hk, int_to_bytes_pos n 2 hn]
        dsimp only
        have hk1 : kind < 256 := by
          have hx := hk.2
          rwa [pow_one] at hx
        have hn1 : n < 65536 := by
          have hx := hn.2
          have hp : (256 : Int) ^ 2 = 65536 := by norm_num
          rwa [hp] at hx
        constructor
        · simp only [headerErrCond, Section.custom_size, Section.data,
            Section.kind]
          simp [hk.1, hk1, hn.1, hn1]
        · simp [natToBEBytes_length]
      · rw [int_to_bytes_pos kind 1 hk, int_to_bytes_neg n 2 hn]
        dsimp only
        simp only [headerErrCond, Section.custom_size, Section.data,
          Section.kind]
        have hp : (256 : Int) ^ 2 = 65536 := by norm_num
        rw [hp] at hn
        have hor : ¬(0 ≤ n) ∨ ¬(n < 65536) := by tauto
        rcases hor with h | h <;> simp [h]
    · rw [int_to_bytes_neg kind 1 hk]
      dsimp only
      simp only [headerErrCond, Section.custom_size, Section.data,
        Section.kind]
      rw [pow_one] at hk
      have hor : ¬(0 ≤ kind) ∨ ¬(kind < 256) := by tauto
      rcases hor with h | h <;> simp [h]
  | none =>
    cases dat with
    | none => rfl
    | some d =>
      dsimp only
      cases hc : code_to_bytes d with
      | error e =>
        dsimp only
        simp only [headerErrCond, Section.custom_size, Section.data,
          Section.kind, hc]
      | ok b =>
        dsimp only
        by_cases hk : 0 ≤ kind ∧ kind < (256 : Int) ^ 1
        · by_cases hl :
              0 ≤ Int.ofNat b.length ∧ Int.ofNat b.length < (256 : Int) ^ 2
          · rw [int_to_bytes_pos kind 1 hk, int_to_bytes_pos _ 2 hl]
            dsimp only
            have hk1 : kind < 256 := by
              have hx := hk.2
              rwa [pow_one] at hx
            have hlen : b.length < 65536 := by
              have h2 := hl.2
              rw [show Int.ofNat b.length = (b.length : Int) from rfl] at h2
              have hp : (256 : Int) ^ 2 = 65536 := by norm_num
              rw [hp] at h2
              exact_mod_cast h2
            constructor
            · simp only [headerErrCond, Section.custom_size, Section.data,
                Section.kind, hc]
              simp [hk.1, hk1, Nat.not_le.mpr hlen]
            · simp [natToBEBytes_length]
          · rw [int_to_bytes_pos kind 1 hk, int_to_bytes_neg _ 2 hl]
            dsimp only
            simp only [headerErrCond, Section.custom_size, Section.data,
              Section.kind, hc]
            have hlen : (65536 : Nat) ≤ b.length := by
              by_contra hlt
              refine hl ⟨Int.natCast_nonneg b.length, ?_⟩
              have hp : (256 : Int) ^ 2 = 65536 := by norm_num
              rw [hp, show Int.ofNat b.length = (b.length : Int) from rfl]
              exact_mod_cast Nat.lt_of_not_le hlt
            simp [hlen]
        · rw [int_to_bytes_neg kind 1 hk]
          dsimp only
          simp only [headerErrCond, Section.custom_size, Section.data,
            Section.kind, hc]
          rw [pow_one] at hk
          have hor : ¬(0 ≤ kind) ∨ ¬(kind < 256) := by tauto
          rcases hor with h | h <;> simp [h]

/-- C9: the first byte of any successful `Container.assemble` output is
`0xEF` regardless of all override fields, and a set `custom_magic` is
encoded as a single byte that lands at index 1 — it replaces only the
byte after the leading `0xEF` marker, never the marker itself. -/
theorem assemble_marker_c9 (c : Container) (out : List Nat)
    (h : Container.assemble c = Except.ok out) :
    out.head? = some 0xEF ∧
      ∀ m, c.custom_magic = some m → out.get? 1 = some m.toNat := by
  rw [assemble_eq_specC1] at h
  obtain ⟨ss, cmagic, cversion, cterm, extra, nm⟩ := c
  simp only [assembleSpecC1, Container.sections, Container.custom_magic,
    Container.custom_version, Container.custom_terminator,
    Container.extra] at h ⊢
  cases hm : magicBytes cmagic with
  | error e => rw [hm] at h; exact absurd h (by simp)
  | ok mb =>
    rw [hm] at h
    dsimp only at h
    cases hv : versionBytes cversion with
    | error e => rw [hv] at h; exact absurd h (by simp)
    | ok vb =>
      rw [hv] at h
      dsimp only at h
      cases hh : collectHeadersC1 ss with
      | error e => rw [hh] at h; exact absurd h (by simp)
      | ok hs =>
        rw [hh] at h
        dsimp only at h
        cases hb : collectBodiesC1 ss with
        | error e => rw [hb] at h; exact absurd h (by simp)
        | ok bs =>
          rw [hb] at h
          dsimp only at h
          have hout := (Except.ok.inj h).symm
          subst hout
          constructor
          · rfl
          · intro m hm2
            subst hm2
            simp only [magicBytes] at hm
            rw [int_to_bytes_eq_ok] at hm
            obtain ⟨⟨h0, h1⟩, hmb⟩ := hm
            subst hmb
            rw [pow_one] at h1
            have hmod : m.toNat % 256 = m.toNat := Nat.mod_eq_of_lt (by omega)
            simp [natToBEBytes, hmod]

/-- A container with `custom_magic = 0xFE`, as in the invalid-magic test. -/
def c9_container : Container :=
  Container.mk [Section.mk (some (CodeArg.ofStr "0x00")) none 1]
    (some 0xFE) none none none none

/-- C9 witness: the invalid-magic container still starts with `0xEF`, and
its second byte is the override `0xFE`. -/
theorem assemble_marker_c9_witness :
    ([0xEF, 0xFE, 0x01, 0x01, 0x00, 0x01, 0x00, 0x00] : List Nat).head? =
        some 0xEF ∧
      ([0xEF, 0xFE, 0x01, 0x01, 0x00, 0x01, 0x00, 0x00] : List Nat).get? 1 =
        some (0xFE : Int).toNat := by
  have h := assemble_marker_c9 c9_container
    [0xEF, 0xFE, 0x01, 0x01, 0x00, 0x01, 0x00, 0x00] (by rfl)
  exact ⟨h.1, h.2 0xFE rfl⟩

/-- Python `int.to_bytes(n, "big")` specialized to a value already known
non-negative (a `len()`): it raises `OverflowError` exactly when the value
does not fit in `n` bytes. -/
def nat_to_bytes (x : Nat) (n : Nat) : Except String (List Nat) :=
  if x < 256 ^ n then .ok (natToBEBytes x n) else .error "OverflowError"

theorem nat_to_bytes_pos (x n : Nat) (h : x < 256 ^ n) :
    nat_to_bytes x n = Except.ok (natToBEBytes x n) := by
  unfold nat_to_bytes
  exact if_pos h

/-- `generate_initcode` of `code/code.py`: the 11 instruction bytes
`61 <len:2> 60 00 81 60 0B 82 39 F3` followed by the payload, where
`<len:2>` is `len(code_bytes).to_bytes(2, "big")`. -/
def generate_initcode (code : CodeArg) : Except String CodeVal :=
  match code_to_bytes code with
  | .error e => .error e
  | .ok code_bytes =>
    match nat_to_bytes code_bytes.length 2 with
    | .error e => .error e
    | .ok lenb =>
      .ok (CodeVal.generic
        (some ([0x61] ++ lenb ++
          [0x60, 0x00, 0x81, 0x60, 0x0B, 0x82, 0x39, 0xF3] ++ code_bytes))
        none)

/-- The fixed 11-byte instruction template around a payload of length `n`:
PUSH2 length, PUSH1 0, DUP2, PUSH1 11, DUP3, CODECOPY, RETURN. -/
def initcodeTemplate (n : Nat) : List Nat :=
  [0x61] ++ natToBEBytes n 2 ++
    [0x60, 0x00, 0x81, 0x60, 0x0B, 0x82, 0x39, 0xF3]

/-- C6: for every payload whose byte conversion succeeds with length below
2^16, `generate_initcode` returns exactly the 11-byte template — with the
payload length big-endian in its 2 middle bytes — followed by the payload
bytes. -/
theorem generate_initcode_c6 (code : CodeArg) (b : List Nat)
    (hb : code_to_bytes code = Except.ok b) (hlen : b.length < 65536) :
    generate_initcode code =
      Except.ok
        (CodeVal.generic (some (initcodeTemplate b.length ++ b)) none) ∧
    (initcodeTemplate b.length).length = 11 := by
  constructor
  · rw [generate_initcode.eq_def, hb]
    dsimp only
    rw [nat_to_bytes_pos b.length 2
      (by rw [show (256 : Nat) ^ 2 = 65536 from by norm_num]; exact hlen)]
    dsimp only
    simp [initcodeTemplate, List.append_assoc]
  · simp [initcodeTemplate, natToBEBytes_length]

/-- C6 witness: the 1-byte payload `0x00` yields exactly the 11-byte
template followed by `00`. -/
theorem generate_initcode_c6_witness :
    generate_initcode (CodeArg.ofStr "0x00") =
      Except.ok
        (CodeVal.generic (some (initcodeTemplate 1 ++ [0x00])) none) ∧
    (initcodeTemplate 1).length = 11 :=
  generate_initcode_c6 (CodeArg.ofStr "0x00") [0x00] (by rfl) (by decide)

/-- `Code.__add__` of `code/code.py`:
`Code(bytecode=code_to_bytes(self) + code_to_bytes(other))`. -/
def codeAdd (self : CodeVal) (other : CodeArg) : Except String CodeVal :=
  match code_to_bytes (CodeArg.ofCode self) with
  | .error e => .error e
  | .ok a =>
    match code_to_bytes other with
    | .error e => .error e
    | .ok b => .ok (CodeVal.generic (some (a ++ b)) none)

/-- `Code.__radd__` of `code/code.py`:
`Code(bytecode=code_to_bytes(other) + code_to_bytes(self))`. -/
def codeRadd (self : CodeVal) (other : CodeArg) : Except String CodeVal :=
  match code_to_bytes other with
  | .error e => .error e
  | .ok b =>
    match code_to_bytes (CodeArg.ofCode self) with
    | .error e => .error e
    | .ok a => .ok (CodeVal.generic (some (b ++ a)) none)

/-- C10: code concatenation is a byte-level homomorphism — `__add__` yields
a `Code` assembling to `code_to_bytes(self) ++ code_to_bytes(other)` and
`__radd__` (invoked as `other + self`) one assembling to
`code_to_bytes(other) ++ code_to_bytes(self)`, left operand first in both
cases. -/
theorem code_add_homomorphism_c10 (a : CodeVal) (b : CodeArg)
    (ba bb : List Nat)
    (ha : code_to_bytes (CodeArg.ofCode a) = Except.ok ba)
    (hb : code_to_bytes b = Except.ok bb) :
    codeAdd a b = Except.ok (CodeVal.generic (some (ba ++ bb)) none) ∧
    codeRadd a b = Except.ok (CodeVal.generic (some (bb ++ ba)) none) ∧
    CodeVal.assemble (CodeVal.generic (some (ba ++ bb)) none) =
      Except.ok (ba ++ bb) ∧
    CodeVal.assemble (CodeVal.generic (some (bb ++ ba)) none) =
      Except.ok (bb ++ ba) := by
  refine ⟨?_, ?_, rfl, rfl⟩
  · simp only [codeAdd]
    rw [ha]
    dsimp only
    rw [hb]
  · simp only [codeRadd]
    rw [hb]
    dsimp only
    rw [ha]

/-- A generic one-byte `Code` value used as the left operand below. -/
def c10_code : CodeVal := CodeVal.generic (some [0x01]) none

/-- C10 witness: `Code(bytecode=01) + "0x02"` assembles to `0102` and
`"0x02" + Code(bytecode=01)` (via `__radd__`) to `0201`. -/
theorem code_add_homomorphism_c10_witness :
    codeAdd c10_code (CodeArg.ofStr "0x02") =
      Except.ok (CodeVal.generic (some [0x01, 0x02]) none) ∧
    codeRadd c10_code (CodeArg.ofStr "0x02") =
      Except.ok (CodeVal.generic (some [0x02, 0x01]) none) ∧
    CodeVal.assemble (CodeVal.generic (some [0x01, 0x02]) none) =
      Except.ok [0x01, 0x02] ∧
    CodeVal.assemble (CodeVal.generic (some [0x02, 0x01]) none) =
      Except.ok [0x02, 0x01] :=
  code_add_homomorphism_c10 c10_code (CodeArg.ofStr "0x02") [0x01] [0x02]
    (by rfl) (by rfl)

/-- One entry of the `OPCODES` enum of `fillers/eof/v1.py`: the opcode byte
(`byte_int`; the one-byte `byte` field is just `bytes([byte_int])`), its
stack effect, its minimum stack height, and its immediate-data length. -/
structure Opcode where
  name : String
  byte_int : Nat
  popped_stack_items : Nat
  pushed_stack_items : Nat
  min_stack_height : Nat
  data_portion_length : Nat

/-- `Opcode.__init__` without an explicit `min_stack_height`: it defaults
to `popped_stack_items`. -/
def mkOp (name : String) (byte popped pushed dataLen : Nat) : Opcode :=
  ⟨name, byte, popped, pushed, popped, dataLen⟩

/-- `Opcode.__init__` with an explicit `min_stack_height`. -/
def mkOpMin (name : String) (byte popped pushed minStack dataLen : Nat) :
    Opcode :=
  ⟨name, byte, popped, pushed, minStack, dataLen⟩

def opSTOP : Opcode := mkOp "STOP" 0x00 0 0 0

def opADD : Opcode := mkOp "ADD" 0x01 2 1 0

def opMUL : Opcode := mkOp "MUL" 0x02 2 1 0

def opSUB : Opcode := mkOp "SUB" 0x03 2 1 0

def opDIV : Opcode := mkOp "DIV" 0x04 2 1 0

def opSDIV : Opcode := mkOp "SDIV" 0x05 2 1 0

def opMOD : Opcode := mkOp "MOD" 0x06 2 1 0

def opSMOD : Opcode := mkOp "SMOD" 0x07 2 1 0

def opADDMOD : Opcode := mkOp "ADDMOD" 0x08 3 1 0

def opMULMOD : Opcode := mkOp "MULMOD" 0x09 3 1 0

def opEXP : Opcode := mkOp "EXP" 0x0A 2 1 0

def opSIGNEXTEND : Opcode := mkOp "SIGNEXTEND" 0x0B 2 1 0

def opLT : Opcode := mkOp "LT" 0x10 2 1 0

def opGT : Opcode := mkOp "GT" 0x11 2 1 0

def opSLT : Opcode := mkOp "SLT" 0x12 2 1 0

def opSGT : Opcode := mkOp "SGT" 0x13 2 1 0

def opEQ : Opcode := mkOp "EQ" 0x14 2 1 0

def opISZERO : Opcode := mkOp "ISZERO" 0x15 1 1 0

def opAND : Opcode := mkOp "AND" 0x16 2 1 0

def opOR : Opcode := mkOp "OR" 0x17 2 1 0

def opXOR : Opcode := mkOp "XOR" 0x18 2 1 0

def opNOT : Opcode := mkOp "NOT" 0x19 1 1 0

def opBYTE : Opcode := mkOp "BYTE" 0x1A 2 1 0

def opSHL : Opcode := mkOp "SHL" 0x1B 2 1 0

def opSHR : Opcode := mkOp "SHR" 0x1C 2 1 0

def opSAR : Opcode := mkOp "SAR" 0x1D 2 1 0

def opSHA3 : Opcode := mkOp "SHA3" 0x20 2 1 0

def opADDRESS : Opcode := mkOp "ADDRESS" 0x30 0 1 0

def opBALANCE : Opcode := mkOp "BALANCE" 0x31 1 1 0

def opORIGIN : Opcode := mkOp "ORIGIN" 0x32 0 1 0

def opCALLER : Opcode := mkOp "CALLER" 0x33 0 1 0

def opCALLVALUE : Opcode := mkOp "CALLVALUE" 0x34 0 1 0

def opCALLDATALOAD : Opcode := mkOp "CALLDATALOAD" 0x35 1 1 0

def opCALLDATASIZE : Opcode := mkOp "CALLDATASIZE" 0x36 0 1 0

def opCALLDATACOPY : Opcode := mkOp "CALLDATACOPY" 0x37 3 0 0

def opCODESIZE : Opcode := mkOp "CODESIZE" 0x38 0 1 0

def opCODECOPY : Opcode := mkOp "CODECOPY" 0x39 3 0 0

def opGASPRICE : Opcode := mkOp "GASPRICE" 0x3A 0 1 0

def opEXTCODESIZE : Opcode := mkOp "EXTCODESIZE" 0x3B 1 1 0

def opEXTCODECOPY : Opcode := mkOp "EXTCODECOPY" 0x3C 4 0 0

def opRETURNDATASIZE : Opcode := mkOp "RETURNDATASIZE" 0x3D 0 1 0

def opRETURNDATACOPY : Opcode := mkOp "RETURNDATACOPY" 0x3E 3 0 0

def opEXTCODEHASH : Opcode := mkOp "EXTCODEHASH" 0x3F 1 1 0

def opBLOCKHASH : Opcode := mkOp "BLOCKHASH" 0x40 1 1 0

def opCOINBASE : Opcode := mkOp "COINBASE" 0x41 0 1 0

def opTIMESTAMP : Opcode := mkOp "TIMESTAMP" 0x42 0 1 0

def opNUMBER : Opcode := mkOp "NUMBER" 0x43 0 1 0

def opPREVRANDAO : Opcode := mkOp "PREVRANDAO" 0x44 0 1 0

def opGASLIMIT : Opcode := mkOp "GASLIMIT" 0x45 0 1 0

def opCHAINID : Opcode := mkOp "CHAINID" 0x46 0 1 0

def opSELFBALANCE : Opcode := mkOp "SELFBALANCE" 0x47 0 1 0

def opBASEFEE : Opcode := mkOp "BASEFEE" 0x48 0 1 0

def opPOP : Opcode := mkOp "POP" 0x50 1 0 0

def opMLOAD : Opcode := mkOp "MLOAD" 0x51 1 1 0

def opMSTORE : Opcode := mkOp "MSTORE" 0x52 2 0 0

def opMSTORE8 : Opcode := mkOp "MSTORE8" 0x53 2 0 0

def opSLOAD : Opcode := mkOp "SLOAD" 0x54 1 1 0

def opSSTORE : Opcode := mkOp "SSTORE" 0x55 2 0 0

def opJUMP : Opcode := mkOp "JUMP" 0x56 1 0 0

def opJUMPI : Opcode := mkOp "JUMPI" 0x57 2 0 0

def opPC : Opcode := mkOp "PC" 0x58 0 1 0

def opMSIZE : Opcode := mkOp "MSIZE" 0x59 0 1 0

def opGAS : Opcode := mkOp "GAS" 0x5A 0 1 0

def opJUMPDEST : Opcode := mkOp "JUMPDEST" 0x5B 0 0 0

def opRJUMP : Opcode := mkOp "RJUMP" 0x5C 0 0 2

def opRJUMPI : Opcode := mkOp "RJUMPI" 0x5D 1 0 2

def opCALLF : Opcode := mkOpMin "CALLF" 0xB0 0 0 0 2

def opRETF : Opcode := mkOpMin "RETF" 0xB1 0 0 0 0

def opPUSH0 : Opcode := mkOp "PUSH0" 0x5F 0 1 0

def opPUSH1 : Opcode := mkOp "PUSH1" 0x60 0 1 1

def opPUSH2 : Opcode := mkOp "PUSH2" 0x61 0 1 2

def opPUSH3 : Opcode := mkOp "PUSH3" 0x62 0 1 3

def opPUSH4 : Opcode := mkOp "PUSH4" 0x63 0 1 4

def opPUSH5 : Opcode := mkOp "PUSH5" 0x64 0 1 5

def opPUSH6 : Opcode := mkOp "PUSH6" 0x65 0 1 6

def opPUSH7 : Opcode := mkOp "PUSH7" 0x66 0 1 7

def opPUSH8 : Opcode := mkOp "PUSH8" 0x67 0 1 8

def opPUSH9 : Opcode := mkOp "PUSH9" 0x68 0 1 9

def opPUSH10 : Opcode := mkOp "PUSH10" 0x69 0 1 10

def opPUSH11 : Opcode := mkOp "PUSH11" 0x6A 0 1 11

def opPUSH12 : Opcode := mkOp "PUSH12" 0x6B 0 1 12

def opPUSH13 : Opcode := mkOp "PUSH13" 0x6C 0 1 13

def opPUSH14 : Opcode := mkOp "PUSH14" 0x6D 0 1 14

def opPUSH15 : Opcode := mkOp "PUSH15" 0x6E 0 1 15

def opPUSH16 : Opcode := mkOp "PUSH16" 0x6F 0 1 16

def opPUSH17 : Opcode := mkOp "PUSH17" 0x70 0 1 17

def opPUSH18 : Opcode := mkOp "PUSH18" 0x71 0 1 18

def opPUSH19 : Opcode := mkOp "PUSH19" 0x72 0 1 19

def opPUSH20 : Opcode := mkOp "PUSH20" 0x73 0 1 20

def opPUSH21 : Opcode := mkOp "PUSH21" 0x74 0 1 21

def opPUSH22 : Opcode := mkOp "PUSH22" 0x75 0 1 22

def opPUSH23 : Opcode := mkOp "PUSH23" 0x76 0 1 23

def opPUSH24 : Opcode := mkOp "PUSH24" 0x77 0 1 24

def opPUSH25 : Opcode := mkOp "PUSH25" 0x78 0 1 25

def opPUSH26 : Opcode := mkOp "PUSH26" 0x79 0 1 26

def opPUSH27 : Opcode := mkOp "PUSH27" 0x7A 0 1 27

def opPUSH28 : Opcode := mkOp "PUSH28" 0x7B 0 1 28

def opPUSH29 : Opcode := mkOp "PUSH29" 0x7C 0 1 29

def opPUSH30 : Opcode := mkOp "PUSH30" 0x7D 0 1 30

def opPUSH31 : Opcode := mkOp "PUSH31" 0x7E 0 1 31

def opPUSH32 : Opcode := mkOp "PUSH32" 0x7F 0 1 32

def opDUP1 : Opcode := mkOpMin "DUP1" 0x80 0 1 1 0

def opDUP2 : Opcode := mkOpMin "DUP2" 0x81 0 1 2 0

def opDUP3 : Opcode := mkOpMin "DUP3" 0x82 0 1 3 0

def opDUP4 : Opcode := mkOpMin "DUP4" 0x83 0 1 4 0

def opDUP5 : Opcode := mkOpMin "DUP5" 0x84 0 1 5 0

def opDUP6 : Opcode := mkOpMin "DUP6" 0x85 0 1 6 0

def opDUP7 : Opcode := mkOpMin "DUP7" 0x86 0 1 7 0

def opDUP8 : Opcode := mkOpMin "DUP8" 0x87 0 1 8 0

def opDUP9 : Opcode := mkOpMin "DUP9" 0x88 0 1 9 0

def opDUP10 : Opcode := mkOpMin "DUP10" 0x89 0 1 10 0

def opDUP11 : Opcode := mkOpMin "DUP11" 0x8A 0 1 11 0

def opDUP12 : Opcode := mkOpMin "DUP12" 0x8B 0 1 12 0

def opDUP13 : Opcode := mkOpMin "DUP13" 0x8C 0 1 13 0

def opDUP14 : Opcode := mkOpMin "DUP14" 0x8D 0 1 14 0

def opDUP15 : Opcode := mkOpMin "DUP15" 0x8E 0 1 15 0

def opDUP16 : Opcode := mkOpMin "DUP16" 0x8F 0 1 16 0

def opSWAP1 : Opcode := mkOpMin "SWAP1" 0x90 0 0 2 0

def opSWAP2 : Opcode := mkOpMin "SWAP2" 0x91 0 0 3 0

def opSWAP3 : Opcode := mkOpMin "SWAP3" 0x92 0 0 4 0

def opSWAP4 : Opcode := mkOpMin "SWAP4" 0x93 0 0 5 0

def opSWAP5 : Opcode := mkOpMin "SWAP5" 0x94 0 0 6 0

def opSWAP6 : Opcode := mkOpMin "SWAP6" 0x95 0 0 7 0

def opSWAP7 : Opcode := mkOpMin "SWAP7" 0x96 0 0 8 0

def opSWAP8 : Opcode := mkOpMin "SWAP8" 0x97 0 0 9 0

def opSWAP9 : Opcode := mkOpMin "SWAP9" 0x98 0 0 10 0

def opSWAP10 : Opcode := mkOpMin "SWAP10" 0x99 0 0 11 0

def opSWAP11 : Opcode := mkOpMin "SWAP11" 0x9A 0 0 12 0

def opSWAP12 : Opcode := mkOpMin "SWAP12" 0x9B 0 0 13 0

def opSWAP13 : Opcode := mkOpMin "SWAP13" 0x9C 0 0 14 0

def opSWAP14 : Opcode := mkOpMin "SWAP14" 0x9D 0 0 15 0

def opSWAP15 : Opcode := mkOpMin "SWAP15" 0x9E 0 0 16 0

def opSWAP16 : Opcode := mkOpMin "SWAP16" 0x9F 0 0 17 0

def opLOG0 : Opcode := mkOp "LOG0" 0xA0 2 0 0

def opLOG1 : Opcode := mkOp "LOG1" 0xA1 3 0 0

def opLOG2 : Opcode := mkOp "LOG2" 0xA2 4 0 0

def opLOG3 : Opcode := mkOp "LOG3" 0xA3 5 0 0

def opLOG4 : Opcode := mkOp "LOG4" 0xA4 6 0 0

def opTLOAD : Opcode := mkOp "TLOAD" 0xB3 1 1 0

def opTSTORE : Opcode := mkOp "TSTORE" 0xB4 2 0 0

def opCREATE : Opcode := mkOp "CREATE" 0xF0 3 1 0

def opCALL : Opcode := mkOp "CALL" 0xF1 7 1 0

def opCALLCODE : Opcode := mkOp "CALLCODE" 0xF2 7 1 0

def opRETURN : Opcode := mkOp "RETURN" 0xF3 2 0 0

def opDELEGATECALL : Opcode := mkOp "DELEGATECALL" 0xF4 6 1 0

def opCREATE2 : Opcode := mkOp "CREATE2" 0xF5 4 1 0

def opSTATICCALL : Opcode := mkOp "STATICCALL" 0xFA 6 1 0

def opREVERT : Opcode := mkOp "REVERT" 0xFD 2 0 0

def opINVALID : Opcode := mkOp "INVALID" 0xFE 0 0 0

def opSELFDESTRUCT : Opcode := mkOp "SELFDESTRUCT" 0xFF 1 0 0

/-- The full `OPCODES` enum of `fillers/eof/v1.py`, in source order. -/
def OPCODES : List Opcode :=
  [opSTOP, opADD, opMUL, opSUB, opDIV, opSDIV, opMOD, opSMOD, opADDMOD,
   opMULMOD, opEXP, opSIGNEXTEND, opLT, opGT, opSLT, opSGT, opEQ, opISZERO,
   opAND, opOR, opXOR, opNOT, opBYTE, opSHL, opSHR, opSAR, opSHA3,
   opADDRESS, opBALANCE, opORIGIN, opCALLER, opCALLVALUE, opCALLDATALOAD,
   opCALLDATASIZE, opCALLDATACOPY, opCODESIZE, opCODECOPY, opGASPRICE,
   opEXTCODESIZE, opEXTCODECOPY, opRETURNDATASIZE, opRETURNDATACOPY,
   opEXTCODEHASH, opBLOCKHASH, opCOINBASE, opTIMESTAMP, opNUMBER,
   opPREVRANDAO, opGASLIMIT, opCHAINID, opSELFBALANCE, opBASEFEE, opPOP,
   opMLOAD, opMSTORE, opMSTORE8, opSLOAD, opSSTORE, opJUMP, opJUMPI, opPC,
   opMSIZE, opGAS, opJUMPDEST, opRJUMP, opRJUMPI, opCALLF, opRETF, opPUSH0,
   opPUSH1, opPUSH2, opPUSH3, opPUSH4, opPUSH5, opPUSH6, opPUSH7, opPUSH8,
   opPUSH9, opPUSH10, opPUSH11, opPUSH12, opPUSH13, opPUSH14, opPUSH15,
   opPUSH16, opPUSH17, opPUSH18, opPUSH19, opPUSH20, opPUSH21, opPUSH22,
   opPUSH23, opPUSH24, opPUSH25, opPUSH26, opPUSH27, opPUSH28, opPUSH29,
   opPUSH30, opPUSH31, opPUSH32, opDUP1, opDUP2, opDUP3, opDUP4, opDUP5,
   opDUP6, opDUP7, opDUP8, opDUP9, opDUP10, opDUP11, opDUP12, opDUP13,
   opDUP14, opDUP15, opDUP16, opSWAP1, opSWAP2, opSWAP3, opSWAP4, opSWAP5,
   opSWAP6, opSWAP7, opSWAP8, opSWAP9, opSWAP10, opSWAP11, opSWAP12,
   opSWAP13, opSWAP14, opSWAP15, opSWAP16, opLOG0, opLOG1, opLOG2, opLOG3,
   opLOG4, opTLOAD, opTSTORE, opCREATE, opCALL, opCALLCODE, opRETURN,
   opDELEGATECALL, opCREATE2, opSTATICCALL, opREVERT, opINVALID,
   opSELFDESTRUCT]

/-- Python `str.lower()` for the ASCII enum member names. -/
def strLower (s : String) : String := String.mk (s.data.map Char.toLower)

/-- One lowercase hex digit. -/
def hexDigitChar (n : Nat) : Char :=
  if n < 10 then Char.ofNat (n + 48) else Char.ofNat (n + 87)

/-- Python `bytes.hex()` of a single byte value. -/
def byteHex (b : Nat) : String :=
  String.mk [hexDigitChar (b / 16), hexDigitChar (b % 16)]

/-- Python `bytes.hex()`. -/
def bytesHex (bs : List Nat) : String := String.join (bs.map byteHex)

/-- The `SectionKind` IntEnum values of `eof/v1/__init__.py`. -/
def SectionKind.CODE : Int := 1

def SectionKind.DATA : Int := 2

def SectionKind.TYPE : Int := 3

/-- The `relative_jump` helper of `fillers/eof/v1.py`: the RJUMP (or
RJUMPI) byte followed by the offset as 2-byte big-endian two's complement
(`to_bytes(2, "big", signed=True)`; every call site's offset is within the
signed 16-bit range where that encoding is total). -/
def relative_jump (relative_offset : Int) (conditional : Bool) : List Nat :=
  (if conditional then opRJUMPI.byte_int else opRJUMP.byte_int) ::
    natToBEBytes ((relative_offset % 65536).toNat) 2

/-- `VALID_TERMINATING_OPCODES` with both `EIP_CODE_VALIDATION` and
`EIP_EOF_FUNCTIONS` active (both are in `V1_EOF_EIPS`), so `RETF` is
appended to the base five. -/
def VALID_TERMINATING_OPCODES : List Opcode :=
  [opSTOP, opRETURN, opREVERT, opINVALID, opSELFDESTRUCT, opRETF]

/-- `INVALID_TERMINATING_OPCODES`: one single-byte `bytes` value per byte
not among the valid terminating opcodes. -/
def INVALID_TERMINATING_OPCODES : List (List Nat) :=
  ((List.range 256).filter (fun i =>
    !((VALID_TERMINATING_OPCODES.map Opcode.byte_int).contains i))).map
    (fun i => [i])

/-- `INVALID_OPCODES`: one single-byte `bytes` value per byte not assigned
in the `OPCODES` table. -/
def INVALID_OPCODES : List (List Nat) :=
  ((List.range 256).filter (fun i =>
    !((OPCODES.map Opcode.byte_int).contains i))).map (fun i => [i])

/-- `VALID_DATA_PORTION_OPCODES`: the table entries with a data portion. -/
def VALID_DATA_PORTION_OPCODES : List Opcode :=
  OPCODES.filter (fun op => 0 < op.data_portion_length)

/-- One valid-terminating-opcode fixture: ORIGIN pushed
`min_stack_height` times, then the terminating opcode, plus a data
section `0x00`. -/
def validTerminatingFixture (op : Opcode) : CodeVal :=
  CodeVal.container (Container.mk
    [Section.mk
        (some (CodeArg.ofBytes
          (List.replicate op.min_stack_height opORIGIN.byte_int ++
            [op.byte_int])))
        none SectionKind.CODE,
      Section.mk (some (CodeArg.ofStr "0x00")) none SectionKind.DATA]
    none none none none
    (some ("valid_terminating_opcode_" ++ strLower op.name)))

/-- One invalid-terminating-opcode fixture: the single invalid byte as the
whole code section. -/
def invalidTerminatingFixture (b : List Nat) : CodeVal :=
  CodeVal.container (Container.mk
    [Section.mk (some (CodeArg.ofBytes b)) none SectionKind.CODE,
      Section.mk (some (CodeArg.ofStr "0x00")) none SectionKind.DATA]
    none none none none
    (some ("invalid_terminating_opcode_0x" ++ bytesHex b)))

/-- One undefined-opcode fixture: the unassigned byte followed by STOP;
the source reuses the `invalid_terminating_opcode_0x` name prefix here. -/
def undefinedOpcodeFixture (b : List Nat) : CodeVal :=
  CodeVal.container (Container.mk
    [Section.mk (some (CodeArg.ofBytes (b ++ [opSTOP.byte_int])))
        none SectionKind.CODE,
      Section.mk (some (CodeArg.ofStr "0x00")) none SectionKind.DATA]
    none none none none
    (some ("invalid_terminating_opcode_0x" ++ bytesHex b)))

/-- The truncated-immediate fixtures for one data-portion opcode: no data
portion at all; a single byte of it when more than one is required; and a
complete data portion that terminates the bytecode. -/
def truncatedFixtures (op : Opcode) : List CodeVal :=
  [CodeVal.container (Container.mk
    [Section.mk (some (CodeArg.ofBytes [op.byte_int])) none
        SectionKind.CODE,
      Section.mk (some (CodeArg.ofStr "0x00")) none SectionKind.DATA]
    none none none none
    (some ("valid_truncated_opcode_" ++ op.name ++ "_no_data")))] ++
  (if 1 < op.data_portion_length then
    [CodeVal.container (Container.mk
      [Section.mk
          (some (CodeArg.ofBytes [op.byte_int, opSTOP.byte_int])) none
          SectionKind.CODE,
        Section.mk (some (CodeArg.ofStr "0x00")) none SectionKind.DATA]
      none none none none
      (some ("valid_truncated_opcode_" ++ op.name ++ "_one_byte")))]
   else []) ++
  [CodeVal.container (Container.mk
    [Section.mk
        (some (CodeArg.ofBytes
          (op.byte_int ::
            List.replicate op.data_portion_length opSTOP.byte_int)))
        none SectionKind.CODE,
      Section.mk (some (CodeArg.ofStr "0x00")) none SectionKind.DATA]
    none none none none
    (some ("valid_truncated_opcode_" ++ op.name ++ "_terminating")))]

/-- The `valid_codes` relative-jump list (EIP_STATIC_RELATIVE_JUMPS is in
`V1_EOF_EIPS`). -/
def rjump_valid_codes : List (List Nat × String) :=
  [(relative_jump 0 false ++ [opSTOP.byte_int], "zero_relative_jump"),
   (relative_jump (-3) false ++ [opSTOP.byte_int],
     "minus_three_relative_jump"),
   (relative_jump 1 false ++ [opSTOP.byte_int, opJUMPDEST.byte_int,
       opSTOP.byte_int],
     "one_relative_jump_to_jumpdest"),
   (relative_jump 1 false ++ [opSTOP.byte_int, opSTOP.byte_int],
     "one_relative_jump_to_stop")]

/-- The `invalid_codes` relative-jump list. -/
def rjump_invalid_codes : List (List Nat × String) :=
  [(relative_jump (-1) false ++ [opSTOP.byte_int],
     "minus_one_relative_jump"),
   (relative_jump (-2) false ++ [opSTOP.byte_int],
     "minus_two_relative_jump"),
   (relative_jump 1 false ++ [opPUSH0.byte_int, opSTOP.byte_int,
       opSTOP.byte_int],
     "one_relative_jump_to_push_data"),
   (relative_jump 1 false ++ [opSTOP.byte_int],
     "one_relative_jump_outside_of_code"),
   (relative_jump (-4) false ++ [opSTOP.byte_int],
     "minus_4_relative_jump_outside_of_code")]

/-- One relative-jump fixture; the source prefixes both the valid and the
invalid loop's names with `valid_rjump_`. -/
def rjumpFixture (code : List Nat × String) : CodeVal :=
  CodeVal.container (Container.mk
    [Section.mk (some (CodeArg.ofBytes code.1)) none SectionKind.CODE,
      Section.mk (some (CodeArg.ofStr "0x00")) none SectionKind.DATA]
    none none none none (some ("valid_rjump_" ++ code.2)))

/-- The two hand-written entries `ALL_VALID_CONTAINERS` starts with. -/
def BASE_VALID_CONTAINERS : List CodeVal :=
  [CodeVal.container (Container.mk
    [Section.mk (some (CodeArg.ofStr "0x00")) none SectionKind.CODE]
    none none none none (some "single_code_section")),
   CodeVal.container (Container.mk
    [Section.mk (some (CodeArg.ofStr "0x00")) none SectionKind.CODE,
      Section.mk (some (CodeArg.ofStr "0x00")) none SectionKind.DATA]
    none none none none (some "single_code_single_data_section"))]

/-- The final value of `ALL_VALID_CONTAINERS` after the (active)
conditional blocks have appended the terminating-opcode and relative-jump
fixtures. -/
def ALL_VALID_CONTAINERS : List CodeVal :=
  BASE_VALID_CONTAINERS ++
    VALID_TERMINATING_OPCODES.map validTerminatingFixture ++
    rjump_valid_codes.map rjumpFixture

/-- The 38 hand-written entries `ALL_INVALID_CONTAINERS` starts with. -/
def BASE_INVALID_CONTAINERS : List CodeVal :=
  [CodeVal.generic (some [0xEF]) (some "incomplete_magic"),
   CodeVal.generic (some [0xEF, 0x00]) (some "no_version"),
   CodeVal.container (Container.mk
     [Section.mk (some (CodeArg.ofStr "0x00")) none SectionKind.CODE]
     (some 0x01) none none none (some "invalid_magic_01")),
   CodeVal.container (Container.mk
     [Section.mk (some (CodeArg.ofStr "0x00")) none SectionKind.CODE]
     (some 0xFF) none none none (some "invalid_magic_ff")),
   CodeVal.container (Container.mk
     [Section.mk (some (CodeArg.ofStr "0x00")) none SectionKind.CODE]
     none (some 0x00) none none (some "invalid_version_zero")),
   CodeVal.container (Container.mk
     [Section.mk (some (CodeArg.ofStr "0x00")) none SectionKind.CODE]
     none (some (LATEST_EOF_VERSION + 1)) none none
     (some "invalid_version_low")),
   CodeVal.container (Container.mk
     [Section.mk (some (CodeArg.ofStr "0x00")) none SectionKind.CODE]
     none (some 0xFF) none none (some "invalid_version_high")),
   CodeVal.generic (some [0xEF, 0x00, 0x01]) (some "no_version"),
   CodeVal.container (Container.mk [] none none none none
     (some "no_sections")),
   CodeVal.generic (some [0xEF, 0x00, 0x01, 0x01])
     (some "no_code_section_size"),
   CodeVal.container (Container.mk
     [Section.mk (some (CodeArg.ofStr "0x00")) none SectionKind.DATA]
     none none none none (some "no_code_section")),
   CodeVal.generic (some [0xEF, 0x00, 0x01, 0x01, 0x00])
     (some "code_section_size_incomplete"),
   CodeVal.container (Container.mk
     [Section.mk (some (CodeArg.ofStr "0x")) (some 3) SectionKind.CODE]
     none none (some []) none (some "no_section_terminator_1")),
   CodeVal.container (Container.mk
     [Section.mk (some (CodeArg.ofStr "0x600000")) none SectionKind.CODE]
     none none (some []) none (some "no_section_terminator_2")),
   CodeVal.container (Container.mk
     [Section.mk (some (CodeArg.ofStr "0x")) (some 0x01) SectionKind.CODE]
     none none none none (some "no_code_section_contents")),
   CodeVal.container (Container.mk
     [Section.mk (some (CodeArg.ofStr "0x00")) (some 0x02)
       SectionKind.CODE]
     none none none none (some "incomplete_code_section_contents")),
   CodeVal.container (Container.mk
     [Section.mk (some (CodeArg.ofStr "0x00")) (some 0x02)
       SectionKind.CODE]
     none none none none (some "incomplete_code_section_contents")),
   CodeVal.container (Container.mk
     [Section.mk (some (CodeArg.ofStr "0x600000")) none SectionKind.CODE]
     none none none (some [0xDE, 0xAD, 0xBE, 0xEF])
     (some "trailing_bytes_after_code_section")),
   CodeVal.container (Container.mk
     [Section.mk (some (CodeArg.ofStr "0x600000")) none SectionKind.CODE,
       Section.mk (some (CodeArg.ofStr "0x600000")) none SectionKind.CODE]
     none none none none (some "multiple_code_sections")),
   CodeVal.container (Container.mk
     [Section.mk (some (CodeArg.ofStr "0x600000")) none SectionKind.CODE,
       Section.mk (some (CodeArg.ofStr "0x600000")) none SectionKind.CODE]
     none none none none (some "code_sections_above_1024")),
   CodeVal.container (Container.mk
     [Section.mk (some (CodeArg.ofStr "0x")) none SectionKind.CODE]
     none none none none (some "empty_code_section")),
   CodeVal.container (Container.mk
     [Section.mk (some (CodeArg.ofStr "0x")) none SectionKind.CODE,
       Section.mk (some (CodeArg.ofStr "0xDEADBEEF")) none
         SectionKind.DATA]
     none none none none (some "empty_code_section_with_non_empty_data")),
   CodeVal.container (Container.mk
     [Section.mk (some (CodeArg.ofStr "0xDEADBEEF")) none
         SectionKind.DATA,
       Section.mk (some (CodeArg.ofStr "0x00")) none SectionKind.CODE]
     none none none none (some "data_section_preceding_code_section")),
   CodeVal.container (Container.mk
     [Section.mk (some (CodeArg.ofStr "0xDEADBEEF")) none
       SectionKind.DATA]
     none none none none (some "data_section_without_code_section")),
   CodeVal.generic (some [0xEF, 0x00, 0x01, 0x01, 0x00, 0x02, 0x02])
     (some "no_data_section_size"),
   CodeVal.generic
     (some [0xEF, 0x00, 0x01, 0x01, 0x00, 0x02, 0x02, 0x00])
     (some "data_section_size_incomplete"),
   CodeVal.container (Container.mk
     [Section.mk (some (CodeArg.ofStr "0x020004")) none SectionKind.CODE]
     none none (some []) none (some "no_section_terminator_3")),
   CodeVal.container (Container.mk
     [Section.mk (some (CodeArg.ofStr "0x600000")) none SectionKind.CODE,
       Section.mk (some (CodeArg.ofStr "0xAABBCCDD")) none
         SectionKind.DATA]
     none none (some []) none (some "no_section_terminator_4")),
   CodeVal.container (Container.mk
     [Section.mk (some (CodeArg.ofStr "0x600000")) none SectionKind.CODE,
       Section.mk (some (CodeArg.ofStr "")) (some 1) SectionKind.DATA]
     none none none none (some "no_data_section_contents")),
   CodeVal.container (Container.mk
     [Section.mk (some (CodeArg.ofStr "0x600000")) none SectionKind.CODE,
       Section.mk (some (CodeArg.ofStr "0xAABBCC")) (some 4)
         SectionKind.DATA]
     none none none none (some "data_section_contents_incomplete")),
   CodeVal.container (Container.mk
     [Section.mk (some (CodeArg.ofStr "0x600000")) none SectionKind.CODE,
       Section.mk (some (CodeArg.ofStr "0xAABBCCDD")) none
         SectionKind.DATA]
     none none none (some [0xEE])
     (some "trailing_bytes_after_data_section")),
   CodeVal.container (Container.mk
     [Section.mk (some (CodeArg.ofStr "0x600000")) none SectionKind.CODE,
       Section.mk (some (CodeArg.ofStr "0xAABBCC")) none SectionKind.DATA,
       Section.mk (some (CodeArg.ofStr "0xAABBCC")) none SectionKind.DATA]
     none none none none (some "multiple_data_sections")),
   CodeVal.container (Container.mk
     [Section.mk (some (CodeArg.ofStr "0x00")) none SectionKind.CODE,
       Section.mk (some (CodeArg.ofStr "0x00")) none SectionKind.CODE,
       Section.mk (some (CodeArg.ofStr "0xAA")) none SectionKind.DATA,
       Section.mk (some (CodeArg.ofStr "0xAA")) none SectionKind.DATA]
     none none none none (some "multiple_code_and_data_sections_1")),
   CodeVal.container (Container.mk
     [Section.mk (some (CodeArg.ofStr "0x00")) none SectionKind.CODE,
       Section.mk (some (CodeArg.ofStr "0xAA")) none SectionKind.DATA,
       Section.mk (some (CodeArg.ofStr "0x00")) none SectionKind.CODE,
       Section.mk (some (CodeArg.ofStr "0xAA")) none SectionKind.DATA]
     none none none none (some "multiple_code_and_data_sections_2")),
   CodeVal.container (Container.mk
     [Section.mk (some (CodeArg.ofStr "0x00")) none SectionKind.CODE,
       Section.mk (some (CodeArg.ofStr "0x")) none SectionKind.DATA]
     none none none none (some "empty_data_section")),
   CodeVal.container (Container.mk
     [Section.mk (some (CodeArg.ofStr "0x00")) none SectionKind.CODE,
       Section.mk (some (CodeArg.ofStr "0x01")) none
         (VERSION_MAX_SECTION_KIND + 1)]
     none none none none (some "unknown_section_1")),
   CodeVal.container (Container.mk
     [Section.mk (some (CodeArg.ofStr "0x01")) none
         (VERSION_MAX_SECTION_KIND + 1),
       Section.mk (some (CodeArg.ofStr "0x00")) none SectionKind.CODE]
     none none none none (some "unknown_section_2")),
   CodeVal.container (Container.mk
     [Section.mk (some (CodeArg.ofStr "0x00")) none SectionKind.CODE,
       Section.mk (some (CodeArg.ofStr "0x")) none
         (VERSION_MAX_SECTION_KIND + 1)]
     none none none none (some "empty_unknown_section_2"))]

/-- The final value of `ALL_INVALID_CONTAINERS` after the (active)
conditional blocks have appended the invalid-terminating-opcode,
undefined-opcode, truncated-immediate and relative-jump fixtures. -/
def ALL_INVALID_CONTAINERS : List CodeVal :=
  BASE_INVALID_CONTAINERS ++
    INVALID_TERMINATING_OPCODES.map invalidTerminatingFixture ++
    INVALID_OPCODES.map undefinedOpcodeFixture ++
    VALID_DATA_PORTION_OPCODES.flatMap truncatedFixtures ++
    rjump_invalid_codes.map rjumpFixture

/-- The `name` attribute a fixture is yielded under (generic `Code` values
and `Container` values both carry one). -/
def fixtureName : CodeVal → Option String
  | .generic _ n => n
  | .container c => c.name

/-- The names of all generated fixtures, valid list then invalid list. -/
def allFixtureNames : List (Option String) :=
  (ALL_VALID_CONTAINERS ++ ALL_INVALID_CONTAINERS).map fixtureName

set_option maxRecDepth 20000 in
/-- C7: the invalid-terminating-opcode loop emits exactly 256 minus the
number of legal terminating opcodes fixtures (one per non-terminating byte,
that byte alone forming the code section, hence placed last), and the
undefined-opcode loop exactly 256 minus the number of opcode-table entries
fixtures (one per unassigned byte, placed before a STOP terminator). -/
theorem fixture_counts_c7 :
    (INVALID_TERMINATING_OPCODES.map invalidTerminatingFixture).length =
      256 - VALID_TERMINATING_OPCODES.length ∧
    (INVALID_OPCODES.map undefinedOpcodeFixture).length =
      256 - OPCODES.length := by
  constructor <;> rw [List.length_map] <;> decide

set_option maxRecDepth 20000 in
/-- C8 (refuted, code bug): the generated fixture names are not unique —
`no_version` and `incomplete_code_section_contents` are each used twice in
the hand-written invalid list, and every unassigned opcode byte receives
the same `invalid_terminating_opcode_0x..` name in both the
invalid-terminator and the undefined-opcode loops (0x0c shown here). -/
theorem fixture_name_collision_c8 :
    2 ≤ allFixtureNames.count (some "no_version") ∧
    2 ≤ allFixtureNames.count (some "incomplete_code_section_contents") ∧
    2 ≤ allFixtureNames.count (some "invalid_terminating_opcode_0x0c") := by
  refine ⟨?_, ?_, ?_⟩ <;> decide

end EOF
